import Mathlib

/-!
Verification of the CarboPratos detection-normalization and calorie-estimation
core, shallowly embedded from the Python sources.  Floating point numbers are
modelled by rationals; Python `round(x, k)` is modelled as round-half-up at k
decimal places; Python `str.lower` is modelled as ASCII lower-casing.
-/

set_option maxRecDepth 40000

/-- Model of Python `round(x, 1)`: nearest multiple of 1/10 (ties rounded up). -/
def round1 (x : ℚ) : ℚ := ((x * 10 + 1/2).floor : ℚ) / 10

/-- Model of Python `round(x, 2)`: nearest multiple of 1/100 (ties rounded up). -/
def round2 (x : ℚ) : ℚ := ((x * 100 + 1/2).floor : ℚ) / 100

/-- Model of the Python builtin min on two numbers. -/
def pymin (a b : ℚ) : ℚ := if a ≤ b then a else b

/-- Model of the Python builtin max on two numbers. -/
def pymax (a b : ℚ) : ℚ := if b ≤ a then a else b

/-- ASCII lower-casing of one character, the model of Python lower-casing. -/
def lowerChar (c : Char) : Char :=
  if 65 ≤ c.toNat ∧ c.toNat ≤ 90 then Char.ofNat (c.toNat + 32) else c

/-- Model of Python `str.lower` (ASCII fragment). -/
def pyLower (s : String) : String := String.mk (s.data.map lowerChar)

/-- Model of the Python substring test `needle in haystack`. -/
def substr (needle haystack : String) : Bool :=
  decide (needle.data <:+: haystack.data)

/-- CALORIE_DATABASE from src/calorie_database.py, as an association list (the
duplicated keys of the Python literal are kept; they bind equal values). -/
def CALORIE_DATABASE : List (String × ℕ) := [
  ("apple", 52), ("maça", 52), ("maca", 52),
  ("orange", 47), ("laranja", 47),
  ("banana", 89),
  ("grapes", 67), ("uva", 67), ("uvas", 67),
  ("strawberry", 32), ("morango", 32), ("morangos", 32),
  ("mango", 60), ("manga", 60),
  ("pineapple", 50), ("abacaxi", 50),
  ("watermelon", 30), ("melancia", 30),
  ("lemon", 29), ("limão", 29), ("limao", 29),
  ("carrot", 41), ("cenoura", 41), ("cenouras", 41),
  ("broccoli", 34), ("brócolis", 34), ("brocolis", 34),
  ("lettuce", 15), ("alface", 15),
  ("tomato", 18), ("tomate", 18), ("tomates", 18),
  ("onion", 40), ("cebola", 40), ("cebolas", 40),
  ("cucumber", 16), ("pepino", 16),
  ("potato", 77), ("batata", 77), ("batatas", 77),
  ("sweet potato", 86), ("batata doce", 86), ("batata_doce", 86),
  ("pepper", 31), ("pimentão", 31), ("pimentao", 31),
  ("cabbage", 25), ("repolho", 25),
  ("spinach", 23), ("espinafre", 23),
  ("eggplant", 25), ("berinjela", 25),
  ("zucchini", 17), ("abobrinha", 17),
  ("corn", 96), ("milho", 96),
  ("green beans", 31), ("vagem", 31), ("feijão verde", 31), ("feijao_verde", 31),
  ("peas", 81), ("ervilha", 81), ("ervilhas", 81),
  ("beans", 347), ("feijão", 347), ("feijao", 347),
  ("lentils", 353), ("lentilha", 353), ("lentilhas", 353),
  ("chickpeas", 364), ("grão de bico", 364), ("grao_de_bico", 364),
  ("soybeans", 446), ("soja", 446),
  ("quinoa", 368), ("quinua", 368),
  ("chicken", 165), ("frango", 165),
  ("beef", 250), ("carne", 250), ("bife", 250),
  ("pork", 242), ("porco", 242), ("lombo", 242),
  ("fish", 206), ("peixe", 206), ("salmão", 208), ("salmão", 208),
  ("shrimp", 99), ("camarão", 99), ("camarao", 99),
  ("egg", 155), ("ovo", 155), ("ovos", 155),
  ("tofu", 76),
  ("turkey", 189), ("peru", 189),
  ("bread", 265), ("pão", 265), ("pao", 265),
  ("pizza", 266),
  ("pasta", 131), ("macarrão", 131), ("macarrao", 131), ("massa", 131),
  ("rice", 130), ("arroz", 130),
  ("noodles", 138), ("talharim", 138),
  ("lasagna", 132), ("lasanha", 132),
  ("ravioli", 142), ("ravioli", 142),
  ("cheese", 113), ("queijo", 113),
  ("milk", 42), ("leite", 42),
  ("yogurt", 59), ("iogurte", 59),
  ("butter", 717), ("manteiga", 717),
  ("cream", 345), ("creme", 345),
  ("mozzarella", 280), ("mussarela", 280),
  ("parmesan", 431), ("parmesão", 431), ("parmesao", 431),
  ("nuts", 607), ("castanha", 607), ("castanhas", 607),
  ("almonds", 579), ("amêndoas", 579), ("amendoas", 579),
  ("walnuts", 654), ("nozes", 654),
  ("peanuts", 567), ("amendoim", 567),
  ("cashews", 553), ("castanha de caju", 553), ("castanha_de_caju", 553),
  ("seeds", 559), ("sementes", 559),
  ("sunflower seeds", 584), ("semente de girassol", 584),
  ("sandwich", 250), ("sanduíche", 250), ("sanduiche", 250),
  ("cake", 350), ("bolo", 350),
  ("donut", 452), ("rosquinha", 452),
  ("hot dog", 290),
  ("hamburger", 354), ("hambúrguer", 354), ("hamburguer", 354),
  ("french fries", 365), ("batata frita", 365), ("batata_frita", 365),
  ("ice cream", 207), ("sorvete", 207),
  ("chocolate", 546), ("chocolate", 546),
  ("cookie", 488), ("biscoito", 488),
  ("cracker", 421), ("bolacha", 421),
  ("soup", 25), ("sopa", 25),
  ("salad", 20), ("salada", 20),
  ("dressing", 450), ("molho", 450),
  ("oil", 884), ("óleo", 884), ("oleo", 884),
  ("olive oil", 884), ("azeite", 884),
  ("vinegar", 19), ("vinagre", 19),
  ("salt", 0), ("sal", 0),
  ("sugar", 387), ("açúcar", 387), ("acucar", 387),
  ("honey", 304), ("mel", 304),
  ("jam", 265), ("geleia", 265),
  ("mustard", 66), ("mostarda", 66),
  ("ketchup", 112),
  ("mayonnaise", 680), ("maionese", 680)]

/-- Model of get_calories_per_100g: CALORIE_DATABASE.get(food_item.lower(), 0). -/
def get_calories_per_100g (food_item : String) : ℕ :=
  (CALORIE_DATABASE.lookup (pyLower food_item)).getD 0

/-- Model of get_available_foods: list(CALORIE_DATABASE.keys()), dict keys being
unique with first-insertion order. -/
def get_available_foods : List String :=
  (CALORIE_DATABASE.map Prod.fst).eraseDups

/-- Canonical detection record produced by the normalizer paths (the Python
dictionaries of food_detector.py and food_classifier.py).  The YOLO path also
records the raw COCO class under coco_class; the classifier path does not. -/
structure Detection where
  class_name : String
  coco_class : Option String
  confidence : ℚ
  bbox : ℚ × ℚ × ℚ × ℚ
  area : ℚ
  calories_per_100g : ℕ
deriving DecidableEq

/-- Per-food entry of the aggregator output (calorie_calculator.py). -/
structure FoodDetail where
  food : String
  weight_g : ℚ
  calories : ℚ
  confidence : ℚ
deriving DecidableEq

/-- Per-image result record.  Success results carry error = none; the error
variant of image_processor.py carries error = some message with zeroed totals
(the Python error dictionary has no food_details key, modelled as []). -/
structure PlateResult where
  image_path : String
  error : Option String
  total_calories : ℚ
  food_count : ℕ
  food_details : List FoodDetail
deriving DecidableEq

namespace FoodClassifier

/-- The food_categories mapping of FoodClassifier.__init__. -/
def food_categories : List (String × List String) := [
  ("arroz", ["arroz", "rice"]),
  ("feijao", ["feijão", "feijao", "beans"]),
  ("frango", ["frango", "chicken"]),
  ("carne", ["carne", "beef", "bife"]),
  ("batata", ["batata", "potato"]),
  ("cenoura", ["cenoura", "carrot"]),
  ("tomate", ["tomate", "tomato"]),
  ("alface", ["alface", "lettuce"]),
  ("queijo", ["queijo", "cheese"]),
  ("pao", ["pão", "pao", "bread"]),
  ("macarrao", ["macarrão", "macarrao", "pasta", "massa"]),
  ("banana", ["banana"]),
  ("maca", ["maçã", "maca", "apple"]),
  ("laranja", ["laranja", "orange"]),
  ("uva", ["uva", "grapes"])]

/-- Model of FoodClassifier._EstimateBoundingBox: the loaded image dimensions
(height, width) when cv2 can read the image, the (0, 0, 640, 480) default
otherwise. -/
def EstimateBoundingBox : Option (ℕ × ℕ) → ℚ × ℚ × ℚ × ℚ
  | some (h, w) => (0, 0, (w : ℚ), (h : ℚ))
  | none => (0, 0, 640, 480)

/-- Model of FoodClassifier._EstimateArea: float(height * width) of the loaded
image, 307200 when the image cannot be read. -/
def EstimateArea : Option (ℕ × ℕ) → ℚ
  | some (h, w) => (h : ℚ) * (w : ℚ)
  | none => 307200

/-- One synthetic detection dictionary as appended by _RuleBasedClassification. -/
def mkFallbackDetection (confidence : ℚ) (dims : Option (ℕ × ℕ)) (name : String) :
    Detection :=
  { class_name := name
    coco_class := none
    confidence := confidence
    bbox := EstimateBoundingBox dims
    area := EstimateArea dims
    calories_per_100g := get_calories_per_100g name }

/-- The inner loop of _RuleBasedClassification for one category: the first
keyword that is a substring of the lower-cased filename stem is taken (the
loop breaks there) and kept when its calories are positive. -/
def matchEntry (stem : String) (ck : String × List String) : Option String :=
  match ck.2.find? (fun keyword => substr keyword stem) with
  | some keyword =>
      if 0 < get_calories_per_100g keyword then some keyword else none
  | none => none

/-- The keyword scan of _RuleBasedClassification over all categories. -/
def matchedFoods (stem : String) : List String :=
  food_categories.filterMap (matchEntry stem)

/-- Model of FoodClassifier._RuleBasedClassification, as a function of the
lower-cased filename stem and of the loaded image dimensions. -/
def RuleBasedClassification (stem : String) (dims : Option (ℕ × ℕ)) :
    List Detection :=
  let classified_foods := (matchedFoods stem).map (mkFallbackDetection (7/10) dims)
  if classified_foods.isEmpty then
    (["arroz", "feijão", "frango"].filter
        (fun food => 0 < get_calories_per_100g food)).map
      (mkFallbackDetection (1/2) dims)
  else
    classified_foods

end FoodClassifier

namespace FoodDetector

/-- The coco_to_food mapping of FoodDetector.__init__. -/
def coco_to_food : List (String × String) := [
  ("bowl", "bowl"),
  ("cup", "cup"),
  ("fork", "utensil"),
  ("knife", "utensil"),
  ("spoon", "utensil"),
  ("carrot", "carrot"),
  ("broccoli", "broccoli"),
  ("cake", "cake"),
  ("donut", "donut"),
  ("pizza", "pizza"),
  ("sandwich", "sandwich"),
  ("hot dog", "hot dog"),
  ("hamburger", "hamburger")]

/-- Model of self.coco_to_food.get(class_name, class_name). -/
def cocoToFood (class_name : String) : String :=
  (coco_to_food.lookup class_name).getD class_name

/-- One raw YOLO box: pixel coordinates, confidence, and the COCO class name
that self.model.names assigns to its class id. -/
structure RawBox where
  x1 : ℚ
  y1 : ℚ
  x2 : ℚ
  y2 : ℚ
  conf : ℚ
  class_name : String
deriving DecidableEq

/-- The per-box body of the loop of FoodDetector._ProcessDetectionResults:
some detection when the box is retained, none when it is dropped. -/
def mkYoloDetection (box : RawBox) : Option Detection :=
  let class_name := box.class_name
  let food_name := cocoToFood class_name
  let area := (box.x2 - box.x1) * (box.y2 - box.y1)
  let calories := get_calories_per_100g food_name
  if 0 < calories ∨ class_name = "bowl" ∨ class_name = "cup" then
    some { class_name := food_name
           coco_class := some class_name
           confidence := box.conf
           bbox := (box.x1, box.y1, box.x2, box.y2)
           area := area
           calories_per_100g := calories }
  else
    none

/-- Model of FoodDetector._ProcessDetectionResults: each YOLO result carries an
optional box list (result.boxes may be None); retained boxes are appended in
order. -/
def ProcessDetectionResults (results : List (Option (List RawBox))) :
    List Detection :=
  results.flatMap fun boxes =>
    match boxes with
    | none => []
    | some bs => bs.filterMap mkYoloDetection

/-- The densities table of FoodDetector._GetFoodDensity. -/
def densities : List (String × ℚ) := [
  ("arroz", 8/10), ("rice", 8/10), ("feijao", 12/10), ("feijão", 12/10),
  ("beans", 12/10),
  ("macarrao", 6/10), ("macarrão", 6/10), ("pasta", 6/10), ("massa", 6/10),
  ("batata", 7/10), ("potato", 7/10), ("batata_doce", 8/10),
  ("sweet potato", 8/10),
  ("frango", 9/10), ("chicken", 9/10), ("carne", 1), ("beef", 1), ("bife", 1),
  ("peixe", 1), ("fish", 1), ("ovo", 9/10), ("egg", 9/10), ("ovos", 9/10),
  ("queijo", 8/10), ("cheese", 8/10),
  ("cenoura", 7/10), ("carrot", 7/10), ("tomate", 6/10), ("tomato", 6/10),
  ("alface", 3/10), ("lettuce", 3/10), ("brocolis", 5/10), ("broccoli", 5/10),
  ("cebola", 6/10), ("onion", 6/10), ("vagem", 5/10), ("green beans", 5/10),
  ("banana", 7/10), ("maca", 7/10), ("maça", 7/10), ("apple", 7/10),
  ("laranja", 6/10), ("orange", 6/10), ("uva", 8/10), ("grapes", 8/10),
  ("default", 8/10)]

/-- Model of FoodDetector._GetFoodDensity: lower-case the name, then
densities.get(food_name, densities['default']) with default 0.8. -/
def GetFoodDensity (food_name : String) : ℚ :=
  (densities.lookup (pyLower food_name)).getD (8/10)

/-- Model of FoodDetector._EstimateFoodHeight: substring keyword rules on the
lower-cased name, first matching category wins. -/
def EstimateFoodHeight (food_name : String) : ℚ :=
  let name := pyLower food_name
  if ["salada", "alface", "lettuce"].any (fun word => substr word name) then 2
  else if ["arroz", "rice", "feijao", "feijão", "beans"].any
      (fun word => substr word name) then 3
  else if ["batata", "potato", "carne", "beef", "frango", "chicken"].any
      (fun word => substr word name) then 4
  else 3

/-- Model of FoodDetector._CalculateFoodArea: pixel-area ratio times the fixed
491 cm² plate area; image_shape is (height, width). -/
def CalculateFoodArea (detection : Detection) (image_shape : ℕ × ℕ) : ℚ :=
  let detection_area := detection.area
  let total_area : ℚ := (image_shape.1 : ℚ) * (image_shape.2 : ℚ)
  let area_ratio := detection_area / total_area
  let plate_area_cm2 : ℚ := 491
  area_ratio * plate_area_cm2

/-- Model of FoodDetector.CalculateFoodVolume. -/
def CalculateFoodVolume (area_cm2 height_cm : ℚ) : ℚ := area_cm2 * height_cm

/-- Model of FoodDetector.CalculateFoodWeight. -/
def CalculateFoodWeight (volume_cm3 density : ℚ) : ℚ := volume_cm3 * density

/-- Model of FoodDetector.ApplyWeightLimitations: clamp to [30, 400] then
round to 1 decimal. -/
def ApplyWeightLimitations (weight : ℚ) : ℚ :=
  round1 (pymax (pymin weight 400) 30)

/-- Model of FoodDetector.EstimateFoodQuantity. -/
def EstimateFoodQuantity (detection : Detection) (image_shape : ℕ × ℕ) : ℚ :=
  let food_area_cm2 := CalculateFoodArea detection image_shape
  let density := GetFoodDensity detection.class_name
  let avg_height_cm := EstimateFoodHeight detection.class_name
  let food_volume_cm3 := CalculateFoodVolume food_area_cm2 avg_height_cm
  let estimated_weight := CalculateFoodWeight food_volume_cm3 density
  ApplyWeightLimitations estimated_weight

end FoodDetector

namespace CalorieCalculator

/-- The per-detection raw (unrounded) calories of CalculatePlateCalories:
calories_per_100g * estimated_weight / 100. -/
def rawCalories (detection : Detection) (image_shape : ℕ × ℕ) : ℚ :=
  ((detection.calories_per_100g : ℚ) *
    FoodDetector.EstimateFoodQuantity detection image_shape) / 100

/-- The loop body of CalculatePlateCalories: accumulate unrounded calories and
append a FoodDetail with individually rounded display fields. -/
def plateStep (image_shape : ℕ × ℕ) (acc : ℚ × List FoodDetail)
    (detection : Detection) : ℚ × List FoodDetail :=
  let estimated_weight := FoodDetector.EstimateFoodQuantity detection image_shape
  let calories := ((detection.calories_per_100g : ℚ) * estimated_weight) / 100
  (acc.1 + calories,
   acc.2 ++ [{ food := detection.class_name
               weight_g := round1 estimated_weight
               calories := round1 calories
               confidence := round2 detection.confidence }])

/-- Model of CalorieCalculator.CalculatePlateCalories, as a function of the
detections the detector returned and of the loaded image shape (height,
width).  The total is rounded once, after the summation loop. -/
def CalculatePlateCalories (detections : List Detection) (image_shape : ℕ × ℕ)
    (image_path : String) : PlateResult :=
  let r := detections.foldl (plateStep image_shape) (0, [])
  { image_path := image_path
    error := none
    total_calories := round1 r.1
    food_count := detections.length
    food_details := r.2 }

/-- Fallible wrapper: detection and image loading can raise (missing file,
undecodable image, backend failure); the per-image environment env bundles
those sources, returning the detection list and the image shape on success. -/
def CalculatePlateCaloriesE (env : String → Except String (List Detection × ℕ × ℕ))
    (image_path : String) : Except String PlateResult :=
  match env image_path with
  | .ok (detections, h, w) => .ok (CalculatePlateCalories detections (h, w) image_path)
  | .error e => .error e

end CalorieCalculator

namespace ImageProcessor

/-- Model of ImageProcessor.ProcessImageFile: any exception of the calculator
is caught and replaced by the error-variant record. -/
def ProcessImageFile (env : String → Except String (List Detection × ℕ × ℕ))
    (image_file : String) : PlateResult :=
  match CalorieCalculator.CalculatePlateCaloriesE env image_file with
  | .ok r => r
  | .error e =>
      { image_path := image_file
        error := some e
        total_calories := 0
        food_count := 0
        food_details := [] }

/-- Model of the per-image loop of ImageProcessor.ProcessDirectory (report-file
writing is external output and is not modelled). -/
def ProcessDirectory (env : String → Except String (List Detection × ℕ × ℕ))
    (image_files : List String) : List PlateResult :=
  image_files.map (ProcessImageFile env)

/-- Model of the successful-result selection of main.PrintResume: results
without an error field. -/
def successfulResults (results : List PlateResult) : List PlateResult :=
  results.filter (fun r => r.error.isNone)

/-- Model of the aggregate of main.PrintResume: sum of total_calories over the
successful results only. -/
def summaryTotalCalories (results : List PlateResult) : ℚ :=
  ((successfulResults results).map PlateResult.total_calories).sum

end ImageProcessor

/-- Concrete detection used to exhibit the rounding design: its estimated
weight on a 1 x 11784 frame is 31.4 g, so its raw calories are 1.57. -/
def roundingDemoDetection : Detection :=
  { class_name := "food"
    coco_class := none
    confidence := 1/2
    bbox := (0, 0, 0, 0)
    area := 314
    calories_per_100g := 5 }

/-- The FoodDetail emitted for one detection by the aggregation loop. -/
def CalorieCalculator.mkFoodDetail (image_shape : ℕ × ℕ) (detection : Detection) :
    FoodDetail :=
  { food := detection.class_name
    weight_g := round1 (FoodDetector.EstimateFoodQuantity detection image_shape)
    calories := round1 (CalorieCalculator.rawCalories detection image_shape)
    confidence := round2 detection.confidence }

/-- Concrete per-image environment for the batch-isolation scenario: three
images in a directory, the second of which cannot be processed. -/
def envDemo : String → Except String (List Detection × ℕ × ℕ) := fun p =>
  if p = "b.jpg" then .error "Image Not Found b.jpg" else .ok ([], 480, 640)

/-- Concrete raw YOLO box for the contextual bowl class. -/
def bowlBox : FoodDetector.RawBox :=
  { x1 := 0, y1 := 0, x2 := 10, y2 := 10, conf := 9/10, class_name := "bowl" }

/-- The detection the YOLO normalization path emits for bowlBox. -/
def bowlDetection : Detection :=
  { class_name := FoodDetector.cocoToFood "bowl"
    coco_class := some "bowl"
    confidence := 9/10
    bbox := (0, 0, 10, 10)
    area := (10 - 0) * (10 - 0)
    calories_per_100g := get_calories_per_100g (FoodDetector.cocoToFood "bowl") }

theorem ratFloor_eq_intFloor (q : ℚ) : q.floor = ⌊q⌋ := by
  rw [Rat.floor_def', Rat.floor_def]

theorem pymin_eq_min (a b : ℚ) : pymin a b = min a b := (min_def a b).symm

theorem pymax_eq_max (a b : ℚ) : pymax a b = max a b := by
  rw [pymax, max_def]
  rcases le_or_lt a b with h | h
  · rcases eq_or_lt_of_le h with rfl | hlt
    · simp
    · rw [if_pos h, if_neg (not_le.mpr hlt)]
  · rw [if_pos h.le, if_neg (not_le.mpr h)]

theorem lowerChar_idem (c : Char) : lowerChar (lowerChar c) = lowerChar c := by
  by_cases h : 65 ≤ c.toNat ∧ c.toNat ≤ 90
  · have hl : lowerChar c = Char.ofNat (c.toNat + 32) := by simp [lowerChar, h]
    rw [hl]
    obtain ⟨h1, h2⟩ := h
    revert h1 h2
    generalize c.toNat = n
    intro h1 h2
    interval_cases n <;> decide
  · simp [lowerChar, h]

theorem pyLower_idem (s : String) : pyLower (pyLower s) = pyLower s := by
  unfold pyLower
  simp only [List.map_map]
  congr 1
  induction s.data with
  | nil => rfl
  | cons c cs ih => simp [ih, lowerChar_idem, Function.comp]

theorem plateStep_foldl (image_shape : ℕ × ℕ) (detections : List Detection)
    (t : ℚ) (ds : List FoodDetail) :
    detections.foldl (CalorieCalculator.plateStep image_shape) (t, ds) =
      (t + (detections.map (fun d => CalorieCalculator.rawCalories d image_shape)).sum,
       ds ++ detections.map (CalorieCalculator.mkFoodDetail image_shape)) := by
  induction detections generalizing t ds with
  | nil => simp
  | cons d rest ih =>
      rw [List.foldl_cons, ih, Prod.mk.injEq]
      constructor
      · show t + CalorieCalculator.rawCalories d image_shape + _ = _
        rw [List.map_cons, List.sum_cons]
        ring
      · simp [CalorieCalculator.plateStep, CalorieCalculator.mkFoodDetail,
          CalorieCalculator.rawCalories]

theorem ruleBased_area (stem : String) (dims : Option (ℕ × ℕ)) :
    ∀ d ∈ FoodClassifier.RuleBasedClassification stem dims,
      d.area = FoodClassifier.EstimateArea dims := by
  intro d hd
  unfold FoodClassifier.RuleBasedClassification at hd
  by_cases hemp : ((FoodClassifier.matchedFoods stem).map
      (FoodClassifier.mkFallbackDetection (7/10) dims)).isEmpty
  · simp only [hemp, if_true] at hd
    obtain ⟨name, _, rfl⟩ := List.mem_map.mp hd
    rfl
  · simp only [hemp, if_false, Bool.false_eq_true] at hd
    obtain ⟨name, _, rfl⟩ := List.mem_map.mp hd
    rfl

theorem matchEntry_some (stem : String) (ck : String × List String) (l : String)
    (hf : FoodClassifier.matchEntry stem ck = some l) :
    l ∈ ck.2 ∧ substr l stem = true ∧ 0 < get_calories_per_100g l := by
  unfold FoodClassifier.matchEntry at hf
  cases hfind : ck.2.find? (fun keyword => substr keyword stem) with
  | none => simp only [hfind] at hf; cases hf
  | some k =>
      simp only [hfind] at hf
      by_cases hcal : 0 < get_calories_per_100g k
      · rw [if_pos hcal] at hf
        cases hf
        have hp := List.find?_some hfind
        exact ⟨List.mem_of_find?_eq_some hfind, by simpa using hp, hcal⟩
      · rw [if_neg hcal] at hf
        cases hf

theorem matchedFoods_sound (stem : String) :
    ∀ l ∈ FoodClassifier.matchedFoods stem,
      (∃ ck ∈ FoodClassifier.food_categories, l ∈ ck.2) ∧
        substr l stem = true ∧ 0 < get_calories_per_100g l := by
  intro l hl
  simp only [FoodClassifier.matchedFoods, List.mem_filterMap] at hl
  obtain ⟨ck, hck, hf⟩ := hl
  obtain ⟨hmem, hsub, hcal⟩ := matchEntry_some stem ck l hf
  exact ⟨⟨ck, hck, hmem⟩, hsub, hcal⟩

theorem matchedFoods_complete (stem : String) :
    ∀ ck ∈ FoodClassifier.food_categories, ∀ k,
      ck.2.find? (fun keyword => substr keyword stem) = some k →
        0 < get_calories_per_100g k → k ∈ FoodClassifier.matchedFoods stem := by
  intro ck hck k hfind hcal
  simp only [FoodClassifier.matchedFoods, List.mem_filterMap]
  exact ⟨ck, hck, by unfold FoodClassifier.matchEntry; simp only [hfind, if_pos hcal]⟩

theorem ruleBased_labels (stem : String) (dims : Option (ℕ × ℕ))
    (hne : FoodClassifier.matchedFoods stem ≠ []) :
    (FoodClassifier.RuleBasedClassification stem dims).map Detection.class_name
      = FoodClassifier.matchedFoods stem := by
  unfold FoodClassifier.RuleBasedClassification
  have hemp : ((FoodClassifier.matchedFoods stem).map
      (FoodClassifier.mkFallbackDetection (7/10) dims)).isEmpty = false := by
    simp [List.isEmpty_iff, hne]
  simp only [hemp, Bool.false_eq_true, if_false, List.map_map]
  have : Detection.class_name ∘ FoodClassifier.mkFallbackDetection (7/10) dims
      = fun n => n := rfl
  rw [this, List.map_id']

theorem countP_filterMap_le {α β : Type} (f : α → Option β) (p : β → Bool)
    (q : α → Bool) (L : List α)
    (h : ∀ x ∈ L, ∀ b, f x = some b → p b = true → q x = true) :
    ((L.filterMap f).filter p).length ≤ L.countP q := by
  induction L with
  | nil => simp
  | cons x xs ih =>
      have ih' := ih fun y hy b hb hp => h y (List.mem_cons_of_mem _ hy) b hb hp
      rw [List.filterMap_cons, List.countP_cons]
      cases hfx : f x with
      | none =>
          exact le_trans ih' (Nat.le_add_right _ _)
      | some b =>
          rw [List.filter_cons]
          by_cases hpb : p b = true
          · have hqx : q x = true := h x (List.mem_cons_self _ _) b hfx hpb
            rw [if_pos hpb, List.length_cons, hqx]
            simpa using ih'
          · rw [if_neg hpb]
            exact le_trans ih' (Nat.le_add_right _ _)

/-- C1: for every detection and every image shape with positive height and
width, FoodDetector.EstimateFoodQuantity returns a value in the closed
interval [30, 400] grams that is rounded to 1 decimal place (an integer
multiple of 1/10). -/
theorem estimateFoodQuantity_range (detection : Detection) (h w : ℕ)
    (_hh : 0 < h) (_hw : 0 < w) :
    30 ≤ FoodDetector.EstimateFoodQuantity detection (h, w) ∧
      FoodDetector.EstimateFoodQuantity detection (h, w) ≤ 400 ∧
      ∃ n : ℤ, FoodDetector.EstimateFoodQuantity detection (h, w) = (n : ℚ) / 10 := by
  have key : ∀ W : ℚ, 30 ≤ FoodDetector.ApplyWeightLimitations W ∧
      FoodDetector.ApplyWeightLimitations W ≤ 400 ∧
      ∃ n : ℤ, FoodDetector.ApplyWeightLimitations W = (n : ℚ) / 10 := by
    intro W
    unfold FoodDetector.ApplyWeightLimitations round1
    rw [pymax_eq_max, pymin_eq_min, ratFloor_eq_intFloor]
    set c := max (min W 400) 30 with hc
    have h30 : (30 : ℚ) ≤ c := le_max_right _ _
    have h400 : c ≤ 400 := max_le (min_le_right _ _) (by norm_num)
    have hfl : (300 : ℤ) ≤ ⌊c * 10 + 1/2⌋ := by
      apply Int.le_floor.mpr
      push_cast
      linarith
    have hfu : ⌊c * 10 + 1/2⌋ ≤ 4000 := by
      have hle : c * 10 + 1/2 ≤ 8001/2 := by linarith
      have hmono := Int.floor_mono hle
      have hval : ⌊(8001/2 : ℚ)⌋ = 4000 := by norm_num
      omega
    have hflq : (300 : ℚ) ≤ (⌊c * 10 + 1/2⌋ : ℚ) := by exact_mod_cast hfl
    have hfuq : (⌊c * 10 + 1/2⌋ : ℚ) ≤ 4000 := by exact_mod_cast hfu
    refine ⟨by linarith, by linarith, ⟨⌊c * 10 + 1/2⌋, rfl⟩⟩
  exact key _

/-- Witness for C1 at a concrete detection and the 480 x 640 image shape. -/
theorem estimateFoodQuantity_range_witness :
    30 ≤ FoodDetector.EstimateFoodQuantity roundingDemoDetection (480, 640) ∧
      FoodDetector.EstimateFoodQuantity roundingDemoDetection (480, 640) ≤ 400 ∧
      ∃ n : ℤ, FoodDetector.EstimateFoodQuantity roundingDemoDetection (480, 640)
        = (n : ℚ) / 10 :=
  estimateFoodQuantity_range roundingDemoDetection 480 640 (by decide) (by decide)

/-- C2: CalculatePlateCalories accumulates the per-detection unrounded
calories (calories_per_100g * estimated_weight / 100) and rounds the total
once after summation; each FoodDetail carries its own unrounded calories
rounded to 1 decimal; and the total is in general not the sum of the
individually rounded FoodDetail calories, as the concrete two-detection
plate shows (3.1 versus 3.2). -/
theorem calculatePlateCalories_rounds_once (detections : List Detection)
    (image_shape : ℕ × ℕ) (image_path : String) :
    ((CalorieCalculator.CalculatePlateCalories detections image_shape
        image_path).total_calories
      = round1 ((detections.map
          (fun d => CalorieCalculator.rawCalories d image_shape)).sum)) ∧
    ((CalorieCalculator.CalculatePlateCalories detections image_shape
        image_path).food_details.map FoodDetail.calories
      = detections.map
          (fun d => round1 (CalorieCalculator.rawCalories d image_shape))) ∧
    ((CalorieCalculator.CalculatePlateCalories
        [roundingDemoDetection, roundingDemoDetection] (1, 11784)
        "img").total_calories
      ≠ ((CalorieCalculator.CalculatePlateCalories
          [roundingDemoDetection, roundingDemoDetection] (1, 11784)
          "img").food_details.map FoodDetail.calories).sum) := by
  refine ⟨?_, ?_, ?_⟩
  · unfold CalorieCalculator.CalculatePlateCalories
    rw [plateStep_foldl]
    simp
  · unfold CalorieCalculator.CalculatePlateCalories
    rw [plateStep_foldl]
    simp only [List.nil_append, List.map_map]
    rfl
  · have h1 : (CalorieCalculator.CalculatePlateCalories
        [roundingDemoDetection, roundingDemoDetection] (1, 11784)
        "img").total_calories = 31/10 := by with_unfolding_all decide
    have h2 : ((CalorieCalculator.CalculatePlateCalories
        [roundingDemoDetection, roundingDemoDetection] (1, 11784)
        "img").food_details.map FoodDetail.calories).sum = 32/10 := by
      with_unfolding_all decide
    rw [h1, h2]
    norm_num

/-- C3: the Nutrition Table lookup lower-cases its argument, so it is
case-insensitive (lookup s equals lookup of the lower-cased s), and it
returns 0 for any label whose lower-casing is not a key of the table; it is
a total function (the Python implementation uses dict.get with default 0 and
cannot raise). -/
theorem get_calories_per_100g_total (s : String) :
    get_calories_per_100g s = get_calories_per_100g (pyLower s) ∧
      (CALORIE_DATABASE.lookup (pyLower s) = none → get_calories_per_100g s = 0) := by
  constructor
  · unfold get_calories_per_100g
    rw [pyLower_idem]
  · intro hnone
    unfold get_calories_per_100g
    rw [hnone]
    rfl

/-- Witness for C3: the unknown label XyzFood (mixed case) yields 0. -/
theorem get_calories_per_100g_total_witness : get_calories_per_100g "XyzFood" = 0 :=
  (get_calories_per_100g_total "XyzFood").2 (by decide)

/-- C4: when processing one image raises, ProcessImageFile returns the error
variant (image path and message captured, zero totals) and the batch
continues: three images whose second one fails yield three results, exactly
one of which carries an error, and the summary total sums the calories of
the two successes only. -/
theorem processDirectory_isolates_failures
    (env : String → Except String (List Detection × ℕ × ℕ))
    (p₁ p₂ p₃ : String) (ds₁ ds₃ : List Detection) (h₁ w₁ h₃ w₃ : ℕ) (e : String)
    (he₁ : env p₁ = .ok (ds₁, h₁, w₁)) (he₂ : env p₂ = .error e)
    (he₃ : env p₃ = .ok (ds₃, h₃, w₃)) :
    ImageProcessor.ProcessImageFile env p₂ =
      { image_path := p₂, error := some e, total_calories := 0, food_count := 0,
        food_details := [] } ∧
    (ImageProcessor.ProcessDirectory env [p₁, p₂, p₃]).length = 3 ∧
    ((ImageProcessor.ProcessDirectory env [p₁, p₂, p₃]).filter
        (fun r => r.error.isSome)).length = 1 ∧
    ImageProcessor.summaryTotalCalories
        (ImageProcessor.ProcessDirectory env [p₁, p₂, p₃])
      = (CalorieCalculator.CalculatePlateCalories ds₁ (h₁, w₁) p₁).total_calories
        + (CalorieCalculator.CalculatePlateCalories ds₃ (h₃, w₃) p₃).total_calories := by
  have hr₁ : ImageProcessor.ProcessImageFile env p₁
      = CalorieCalculator.CalculatePlateCalories ds₁ (h₁, w₁) p₁ := by
    simp [ImageProcessor.ProcessImageFile, CalorieCalculator.CalculatePlateCaloriesE, he₁]
  have hr₂ : ImageProcessor.ProcessImageFile env p₂ =
      { image_path := p₂, error := some e, total_calories := 0, food_count := 0,
        food_details := [] } := by
    simp [ImageProcessor.ProcessImageFile, CalorieCalculator.CalculatePlateCaloriesE, he₂]
  have hr₃ : ImageProcessor.ProcessImageFile env p₃
      = CalorieCalculator.CalculatePlateCalories ds₃ (h₃, w₃) p₃ := by
    simp [ImageProcessor.ProcessImageFile, CalorieCalculator.CalculatePlateCaloriesE, he₃]
  have hok : ∀ (ds : List Detection) (s : ℕ × ℕ) (p : String),
      (CalorieCalculator.CalculatePlateCalories ds s p).error = none := by
    intro ds s p
    rfl
  refine ⟨hr₂, ?_, ?_, ?_⟩
  · simp [ImageProcessor.ProcessDirectory]
  · simp only [ImageProcessor.ProcessDirectory, List.map_cons, List.map_nil,
      hr₁, hr₂, hr₃, List.filter]
    rw [hok, hok]
    rfl
  · simp only [ImageProcessor.ProcessDirectory, ImageProcessor.summaryTotalCalories,
      ImageProcessor.successfulResults, List.map_cons, List.map_nil,
      hr₁, hr₂, hr₃, List.filter]
    rw [hok, hok]
    simp

/-- Witness for C4 on the concrete three-image batch with a corrupt second
image. -/
theorem processDirectory_isolates_failures_witness :
    ImageProcessor.ProcessImageFile envDemo "b.jpg" =
      { image_path := "b.jpg", error := some "Image Not Found b.jpg",
        total_calories := 0, food_count := 0, food_details := [] } ∧
    (ImageProcessor.ProcessDirectory envDemo ["a.jpg", "b.jpg", "c.jpg"]).length = 3 ∧
    ((ImageProcessor.ProcessDirectory envDemo ["a.jpg", "b.jpg", "c.jpg"]).filter
        (fun r => r.error.isSome)).length = 1 ∧
    ImageProcessor.summaryTotalCalories
        (ImageProcessor.ProcessDirectory envDemo ["a.jpg", "b.jpg", "c.jpg"])
      = (CalorieCalculator.CalculatePlateCalories [] (480, 640) "a.jpg").total_calories
        + (CalorieCalculator.CalculatePlateCalories [] (480, 640) "c.jpg").total_calories :=
  processDirectory_isolates_failures envDemo "a.jpg" "b.jpg" "c.jpg" [] [] 480 640 480 640
    "Image Not Found b.jpg" (by rfl) (by rfl) (by rfl)

/-- Counterexample to C5 as stated: the area-conversion step applies no
override for filename-fallback detections.  The fallback detection produced
for the stem arroz on a 480 x 640 image gets food_area_cm2 = 491 (the whole
plate), not 0.4 * 491. -/
theorem calculateFoodArea_no_override_counterexample :
    (FoodClassifier.RuleBasedClassification "arroz" (some (480, 640))).map
        (fun d => FoodDetector.CalculateFoodArea d (480, 640)) = [491] ∧
      (491 : ℚ) ≠ (4/10) * 491 := by
  constructor
  · have hm : FoodClassifier.matchedFoods "arroz" = ["arroz"] := by decide
    simp only [FoodClassifier.RuleBasedClassification, hm, List.map_cons,
      List.map_nil, List.isEmpty_cons, Bool.false_eq_true, if_false,
      FoodClassifier.mkFallbackDetection, FoodDetector.CalculateFoodArea,
      FoodClassifier.EstimateArea]
    norm_num
  · norm_num

/-- C5 amended: the area-conversion step applies no fallback-specific
override: it always computes area_ratio * 491.  Since a filename-fallback
detection carries the full image pixel area as its synthetic area, its
food_area_cm2 is 491 (the food is assumed to occupy 100 percent of the
plate), not 0.4 * 491. -/
theorem calculateFoodArea_fallback_full_plate (stem : String) (h w : ℕ)
    (hh : 0 < h) (hw : 0 < w) :
    ∀ d ∈ FoodClassifier.RuleBasedClassification stem (some (h, w)),
      FoodDetector.CalculateFoodArea d (h, w) = 491 := by
  intro d hd
  have harea : d.area = FoodClassifier.EstimateArea (some (h, w)) :=
    ruleBased_area stem (some (h, w)) d hd
  have hhq : (0 : ℚ) < (h : ℚ) := by exact_mod_cast hh
  have hwq : (0 : ℚ) < (w : ℚ) := by exact_mod_cast hw
  have hne : ((h : ℚ) * (w : ℚ)) ≠ 0 := ne_of_gt (mul_pos hhq hwq)
  unfold FoodDetector.CalculateFoodArea
  rw [harea]
  show (h : ℚ) * (w : ℚ) / ((h : ℚ) * (w : ℚ)) * 491 = 491
  rw [div_self hne, one_mul]

/-- Witness for the amended C5 at the arroz fallback detection on a
480 x 640 image. -/
theorem calculateFoodArea_fallback_full_plate_witness :
    FoodDetector.CalculateFoodArea
        (FoodClassifier.mkFallbackDetection (7/10) (some (480, 640)) "arroz")
        (480, 640) = 491 :=
  calculateFoodArea_fallback_full_plate "arroz" 480 640 (by decide) (by decide)
    (FoodClassifier.mkFallbackDetection (7/10) (some (480, 640)) "arroz")
    (by
      have hm : FoodClassifier.matchedFoods "arroz" = ["arroz"] := by decide
      simp [FoodClassifier.RuleBasedClassification, hm])

/-- Counterexample to C6 as stated: with the stem arroz_feijao (2 matched
foods) on a 480 x 640 image, each synthetic detection area is the full image
pixel area 307200, not 50000 / 2 = 25000. -/
theorem synthetic_area_counterexample :
    (FoodClassifier.RuleBasedClassification "arroz_feijao" (some (480, 640))).map
        Detection.area = [307200, 307200] ∧
      (307200 : ℚ) ≠ 50000 / 2 := by
  constructor
  · have hm : FoodClassifier.matchedFoods "arroz_feijao" = ["arroz", "feijao"] := by
      decide
    simp only [FoodClassifier.RuleBasedClassification, hm, List.map_cons,
      List.map_nil, List.isEmpty_cons, Bool.false_eq_true, if_false,
      FoodClassifier.mkFallbackDetection, FoodClassifier.EstimateArea]
    norm_num
  · norm_num

/-- C6 amended: every synthetic detection of the filename fallback carries
the full image pixel area height * width as its area (307200 when the image
cannot be read), independently of the number of matched foods. -/
theorem synthetic_area_is_image_area (stem : String) (h w : ℕ) :
    (∀ d ∈ FoodClassifier.RuleBasedClassification stem (some (h, w)),
        d.area = (h : ℚ) * (w : ℚ)) ∧
      (∀ d ∈ FoodClassifier.RuleBasedClassification stem none, d.area = 307200) :=
  ⟨fun d hd => ruleBased_area stem (some (h, w)) d hd,
   fun d hd => ruleBased_area stem none d hd⟩

/-- Witness for the amended C6 at the feijao fallback detection of the stem
arroz_feijao on a 480 x 640 image. -/
theorem synthetic_area_is_image_area_witness :
    (FoodClassifier.mkFallbackDetection (7/10) (some (480, 640)) "feijao").area
      = ((480 : ℕ) : ℚ) * ((640 : ℕ) : ℚ) :=
  (synthetic_area_is_image_area "arroz_feijao" 480 640).1
    (FoodClassifier.mkFallbackDetection (7/10) (some (480, 640)) "feijao")
    (by
      have hm : FoodClassifier.matchedFoods "arroz_feijao" = ["arroz", "feijao"] := by
        decide
      simp [FoodClassifier.RuleBasedClassification, hm])

/-- C7: for the filename stem arroz_feijao, whatever the loaded image
dimensions, the filename fallback yields exactly the detections arroz and
feijao, in that order, each with confidence 0.7. -/
theorem ruleBased_arroz_feijao (dims : Option (ℕ × ℕ)) :
    (FoodClassifier.RuleBasedClassification "arroz_feijao" dims).map
        Detection.class_name = ["arroz", "feijao"] ∧
      (FoodClassifier.RuleBasedClassification "arroz_feijao" dims).map
        Detection.confidence = [7/10, 7/10] := by
  have hm : FoodClassifier.matchedFoods "arroz_feijao" = ["arroz", "feijao"] := by
    decide
  constructor
  · rw [ruleBased_labels "arroz_feijao" dims (by rw [hm]; decide)]
    exact hm
  · simp [FoodClassifier.RuleBasedClassification, hm,
      FoodClassifier.mkFallbackDetection]

/-- C8: every detection emitted by the YOLO normalization path has positive
calories_per_100g or is a contextual bowl or cup; raw boxes meeting neither
condition are dropped. -/
theorem processDetectionResults_allowlist
    (results : List (Option (List FoodDetector.RawBox))) :
    ∀ d ∈ FoodDetector.ProcessDetectionResults results,
      0 < d.calories_per_100g ∨ d.class_name = "bowl" ∨ d.class_name = "cup" := by
  intro d hd
  simp only [FoodDetector.ProcessDetectionResults, List.mem_flatMap] at hd
  obtain ⟨ob, hob, hdm⟩ := hd
  cases ob with
  | none => simp at hdm
  | some bs =>
      simp only [List.mem_filterMap] at hdm
      obtain ⟨box, hbox, hmk⟩ := hdm
      simp only [FoodDetector.mkYoloDetection] at hmk
      split at hmk
      case isTrue hcond =>
        cases hmk
        rcases hcond with hcal | hb | hc
        · exact Or.inl hcal
        · right; left
          show FoodDetector.cocoToFood box.class_name = "bowl"
          rw [hb]
          decide
        · right; right
          show FoodDetector.cocoToFood box.class_name = "cup"
          rw [hc]
          decide
      case isFalse => cases hmk

/-- Witness for C8: the zero-calorie bowl detection is retained and satisfies
the allow-list disjunction. -/
theorem processDetectionResults_allowlist_witness :
    0 < bowlDetection.calories_per_100g ∨ bowlDetection.class_name = "bowl" ∨
      bowlDetection.class_name = "cup" :=
  processDetectionResults_allowlist [some [bowlBox]] bowlDetection
    (by with_unfolding_all decide)

/-- Counterexample to C9 as stated: pizza is a Nutrition Table label of
length > 2 and a substring of the stem pizza, yet the filename fallback
produces no pizza detection for that stem (the curated category map does not
contain pizza, so the default common foods are returned instead). -/
theorem filename_scan_counterexample :
    ("pizza" ∈ get_available_foods ∧ 2 < "pizza".length ∧
        substr "pizza" "pizza" = true) ∧
      (FoodClassifier.RuleBasedClassification "pizza" (some (480, 640))).map
          Detection.class_name = ["arroz", "feijão", "frango"] ∧
      "pizza" ∉ (FoodClassifier.RuleBasedClassification "pizza"
          (some (480, 640))).map Detection.class_name :=
  ⟨by decide, by decide, by decide⟩

/-- C9 amended: the keyword scan of the filename fallback runs over the
classifier's fixed food_categories map, not over the Nutrition Table's label
set: every matched label is a keyword of some category, is a substring of
the stem, and has positive calories; conversely every category whose keyword
list has a substring match contributes its first matching keyword (when its
calories are positive); and when any category matches, the emitted
detections are labelled exactly with the matched keywords. -/
theorem matchedFoods_scans_fixed_categories (stem : String) :
    (∀ l ∈ FoodClassifier.matchedFoods stem,
        (∃ ck ∈ FoodClassifier.food_categories, l ∈ ck.2) ∧
          substr l stem = true ∧ 0 < get_calories_per_100g l) ∧
      (∀ ck ∈ FoodClassifier.food_categories, ∀ k,
          ck.2.find? (fun keyword => substr keyword stem) = some k →
            0 < get_calories_per_100g k → k ∈ FoodClassifier.matchedFoods stem) ∧
      (∀ dims : Option (ℕ × ℕ), FoodClassifier.matchedFoods stem ≠ [] →
          (FoodClassifier.RuleBasedClassification stem dims).map
            Detection.class_name = FoodClassifier.matchedFoods stem) :=
  ⟨matchedFoods_sound stem, matchedFoods_complete stem,
    fun dims hne => ruleBased_labels stem dims hne⟩

/-- Witness for the amended C9: the stem arroz matches the arroz category and
arroz is indeed scanned into the matched list. -/
theorem matchedFoods_scans_fixed_categories_witness :
    "arroz" ∈ FoodClassifier.matchedFoods "arroz" :=
  (matchedFoods_scans_fixed_categories "arroz").2.1 ("arroz", ["arroz", "rice"])
    (by decide) "arroz" (by decide) (by decide)

theorem matchedFoods_filter_le_one (stem : String) (p : String → Bool)
    (hcnt : FoodClassifier.food_categories.countP
        (fun ck' => decide (∃ k ∈ ck'.2, p k = true)) ≤ 1) :
    ((FoodClassifier.matchedFoods stem).filter p).length ≤ 1 := by
  unfold FoodClassifier.matchedFoods
  refine le_trans (countP_filterMap_le (FoodClassifier.matchEntry stem) p
    (fun ck' => decide (∃ k ∈ ck'.2, p k = true))
    FoodClassifier.food_categories ?_) hcnt
  intro x _ b hfb hp
  rw [decide_eq_true_iff]
  exact ⟨b, (matchEntry_some stem x b hfb).1, hp⟩

/-- C10: the filename-keyword fallback produces at most one detection per
food category (the scan of a category breaks at its first matching keyword),
so a stem containing both arroz and rice yields among those two labels
exactly one detection, labelled arroz. -/
theorem at_most_one_detection_per_category (stem : String) :
    (∀ ck ∈ FoodClassifier.food_categories,
        ((FoodClassifier.matchedFoods stem).filter
            (fun l => decide (l ∈ ck.2))).length ≤ 1) ∧
      (∀ dims : Option (ℕ × ℕ), substr "arroz" stem = true →
          substr "rice" stem = true →
          ((FoodClassifier.RuleBasedClassification stem dims).map
              Detection.class_name).filter
            (fun l => decide (l = "arroz" ∨ l = "rice")) = ["arroz"]) := by
  constructor
  · intro ck hck
    apply matchedFoods_filter_le_one
    revert hck
    revert ck
    decide
  · intro dims ha hr
    have hfind : (["arroz", "rice"].find?
        (fun keyword => substr keyword stem)) = some "arroz" :=
      List.find?_cons_of_pos _ ha
    have hmem : "arroz" ∈ FoodClassifier.matchedFoods stem :=
      matchedFoods_complete stem ("arroz", ["arroz", "rice"]) (by decide)
        "arroz" hfind (by decide)
    have hne : FoodClassifier.matchedFoods stem ≠ [] := by
      intro h0
      rw [h0] at hmem
      exact List.not_mem_nil _ hmem
    rw [ruleBased_labels stem dims hne]
    have hlen : ((FoodClassifier.matchedFoods stem).filter
        (fun l => decide (l = "arroz" ∨ l = "rice"))).length ≤ 1 := by
      apply matchedFoods_filter_le_one
      decide
    have hmemf : "arroz" ∈ (FoodClassifier.matchedFoods stem).filter
        (fun l => decide (l = "arroz" ∨ l = "rice")) :=
      List.mem_filter.mpr ⟨hmem, by decide⟩
    rcases hfe : (FoodClassifier.matchedFoods stem).filter
        (fun l => decide (l = "arroz" ∨ l = "rice")) with _ | ⟨a, t⟩
    · rw [hfe] at hmemf
      cases hmemf
    · rw [hfe] at hmemf hlen
      cases t with
      | nil =>
          have haz : "arroz" = a := by simpa using hmemf
          rw [← haz]
      | cons b t' => simp at hlen

/-- Witness for C10 at the concrete stem arroz_rice on a 480 x 640 image. -/
theorem at_most_one_detection_per_category_witness :
    ((FoodClassifier.matchedFoods "arroz_rice").filter
        (fun l => decide (l ∈ (("arroz", ["arroz", "rice"]) :
          String × List String).2))).length ≤ 1 ∧
      ((FoodClassifier.RuleBasedClassification "arroz_rice"
            (some (480, 640))).map Detection.class_name).filter
        (fun l => decide (l = "arroz" ∨ l = "rice")) = ["arroz"] :=
  ⟨(at_most_one_detection_per_category "arroz_rice").1
      ("arroz", ["arroz", "rice"]) (by decide),
    (at_most_one_detection_per_category "arroz_rice").2 (some (480, 640))
      (by decide) (by decide)⟩
